import Mathlib

/-!
Verification of the DLRover master node manager
(`dlrover/python/master/node/node_manager.py`).

The development embeds the node data model, the state-flow lookup, the
event-processing coordinator and the relaunch policy, and proves the
spec-level properties about them.
-/

/-- Embeds `NodeStatus` from `dlrover.python.common.constants`
(INITIAL, PENDING, RUNNING, SUCCEEDED, FAILED, DELETED). -/
inductive NodeStatus where
  | INITIAL
  | PENDING
  | RUNNING
  | SUCCEEDED
  | FAILED
  | DELETED
deriving DecidableEq, Repr, Fintype

/-- Embeds `NodeEventType` from `dlrover.python.common.constants`. -/
inductive NodeEventType where
  | ADDED
  | MODIFIED
  | DELETED
deriving DecidableEq, Repr, Fintype

/-- Embeds `NodeExitReason` from `dlrover.python.common.constants`. -/
inductive NodeExitReason where
  | NONE
  | KILLED
  | OOM
  | FATAL_ERROR
  | UNKNOWN
deriving DecidableEq, Repr, Fintype

/-- Embeds `NodeType` from `dlrover.python.common.constants`
(the four training roles owned by the manager's node index). -/
inductive NodeType where
  | PS
  | CHIEF
  | WORKER
  | EVALUATOR
deriving DecidableEq, Repr, Fintype

/-- Modelled from the spec: `NodeResourceLimit.MAX_MEMORY`, the system memory
ceiling in MB, lives in `dlrover.python.common.constants` which is not part of
the sources; scenario 1 of the spec fixes it at 65536 MB. -/
def MAX_MEMORY : Nat := 65536

/-- Modelled from the spec: the per-node resource usage record
`{cpu, memory_mb}` (§3 of the spec); its class is not part of the sources. -/
structure NodeResource where
  cpu : Nat
  memory : Nat
deriving DecidableEq, Repr

/-- Modelled from the spec: the `Node` record of
`dlrover.python.master.watcher.base_watcher`, which is not part of the
sources.  Fields follow §3 of the spec: identity (`type`, `id`, `name`),
`status`, `exit_reason`, resource usage, times, the relaunch budget and the
three flags, plus `is_recovered_oom` set by the relaunch policy. -/
structure Node where
  type : NodeType
  id : Nat
  name : Option String
  status : NodeStatus
  exit_reason : NodeExitReason
  used_resource : NodeResource
  create_time : Option Nat
  start_time : Option Nat
  relaunch_count : Nat
  max_relaunch_count : Nat
  critical : Bool
  relaunchable : Bool
  is_released : Bool
  is_recovered_oom : Bool
deriving DecidableEq, Repr

/-- Modelled from the spec: `Node.update_info(name, start_time, create_time)`
(§4.A) refreshes the three identity fields, keeping the old value when the
argument is absent. -/
def Node.update_info (n : Node) (name : Option String)
    (start_time : Option Nat) (create_time : Option Nat) : Node :=
  { n with
    name := match name with
      | some v => some v
      | none => n.name
    start_time := match start_time with
      | some v => some v
      | none => n.start_time
    create_time := match create_time with
      | some v => some v
      | none => n.create_time }

/-- Modelled from the spec: `Node.update_status(s)` (§4.A) stores the given
status. -/
def Node.update_status (n : Node) (status : NodeStatus) : Node :=
  { n with status := status }

/-- Modelled from the spec: `Node.set_exit_reason(r)` (§4.A). -/
def Node.set_exit_reason (n : Node) (reason : NodeExitReason) : Node :=
  { n with exit_reason := reason }

/-- Modelled from the spec: `Node.inc_relaunch_count()` (§4.A). -/
def Node.inc_relaunch_count (n : Node) : Node :=
  { n with relaunch_count := n.relaunch_count + 1 }

/-- Modelled from the spec: `Node.update_resource_usage(cpu, mem)` (§4.A). -/
def Node.update_resource_usage (n : Node) (cpu : Nat) (memory : Nat) : Node :=
  { n with used_resource := { cpu := cpu, memory := memory } }

/-- Embeds `NodeStateFlow` of `dlrover.python.master.node.status_flow` as it
is consumed by `node_manager.py`: the fields read by the coordinator are
`from_status`, `to_status` and `should_relaunch`. -/
structure NodeStateFlow where
  from_status : NodeStatus
  to_status : NodeStatus
  should_relaunch : Bool
deriving DecidableEq, Repr

/-- Modelled from the spec: one row of the transition table of §3, keyed by
`(from_status, event_type)` with the target status used to disambiguate
MODIFIED events. -/
structure StateFlowEntry where
  from_status : NodeStatus
  event_types : List NodeEventType
  to_status : NodeStatus
  should_relaunch : Bool
deriving DecidableEq, Repr

/-- Modelled from the spec: the transition table of §3.  Rows: the ordinary
lifecycle INITIAL/PENDING → PENDING/RUNNING on ADDED or MODIFIED; the success
phase `* → SUCCEEDED` with `should_relaunch = false`; `RUNNING → FAILED` on
MODIFIED with `should_relaunch = true`; and every status other than DELETED
goes to DELETED on a DELETED event, with `should_relaunch = true` unless the
transition leaves SUCCEEDED or FAILED. -/
def NODE_STATE_FLOWS : List StateFlowEntry :=
  [ { from_status := NodeStatus.INITIAL,
      event_types := [NodeEventType.ADDED, NodeEventType.MODIFIED],
      to_status := NodeStatus.PENDING, should_relaunch := false }
  , { from_status := NodeStatus.INITIAL,
      event_types := [NodeEventType.ADDED, NodeEventType.MODIFIED],
      to_status := NodeStatus.RUNNING, should_relaunch := false }
  , { from_status := NodeStatus.PENDING,
      event_types := [NodeEventType.ADDED, NodeEventType.MODIFIED],
      to_status := NodeStatus.RUNNING, should_relaunch := false }
  , { from_status := NodeStatus.INITIAL,
      event_types := [NodeEventType.ADDED, NodeEventType.MODIFIED],
      to_status := NodeStatus.SUCCEEDED, should_relaunch := false }
  , { from_status := NodeStatus.PENDING,
      event_types := [NodeEventType.ADDED, NodeEventType.MODIFIED],
      to_status := NodeStatus.SUCCEEDED, should_relaunch := false }
  , { from_status := NodeStatus.RUNNING,
      event_types := [NodeEventType.MODIFIED],
      to_status := NodeStatus.SUCCEEDED, should_relaunch := false }
  , { from_status := NodeStatus.RUNNING,
      event_types := [NodeEventType.MODIFIED],
      to_status := NodeStatus.FAILED, should_relaunch := true }
  , { from_status := NodeStatus.INITIAL,
      event_types := [NodeEventType.DELETED],
      to_status := NodeStatus.DELETED, should_relaunch := true }
  , { from_status := NodeStatus.PENDING,
      event_types := [NodeEventType.DELETED],
      to_status := NodeStatus.DELETED, should_relaunch := true }
  , { from_status := NodeStatus.RUNNING,
      event_types := [NodeEventType.DELETED],
      to_status := NodeStatus.DELETED, should_relaunch := true }
  , { from_status := NodeStatus.SUCCEEDED,
      event_types := [NodeEventType.DELETED],
      to_status := NodeStatus.DELETED, should_relaunch := false }
  , { from_status := NodeStatus.FAILED,
      event_types := [NodeEventType.DELETED],
      to_status := NodeStatus.DELETED, should_relaunch := false }
  ]

/-- Modelled from the spec: `get_node_state_flow` of
`dlrover.python.master.node.status_flow`, which is not part of the sources.
Per §3/§4.B it is a pure lookup of the table keyed by
`(from_status, event_type)`; on a DELETED event the target is DELETED
regardless of the carried status, otherwise the carried status is validated
against the entry's target.  Absence of a matching entry yields `none`. -/
def get_node_state_flow (from_status : NodeStatus) (event_type : NodeEventType)
    (new_status : NodeStatus) : Option NodeStateFlow :=
  let to_status :=
    if event_type = NodeEventType.DELETED then NodeStatus.DELETED
    else new_status
  (NODE_STATE_FLOWS.find? fun e =>
      decide (e.from_status = from_status ∧ event_type ∈ e.event_types ∧
        e.to_status = to_status)).map
    fun e =>
      { from_status := e.from_status
        to_status := e.to_status
        should_relaunch := e.should_relaunch }

/-- Embeds `NodeEvent` of `dlrover.python.master.watcher.base_watcher` as
consumed by `node_manager.py`: an event type and the node snapshot it
carries. -/
structure NodeEvent where
  event_type : NodeEventType
  node : Node
deriving DecidableEq, Repr

/-- The callback capabilities of `NodeEventCallback`
(`dlrover.python.master.node.event_callback`); the coordinator fires one of
these four per dispatched transition. -/
inductive CallbackKind where
  | on_node_started
  | on_node_succeeded
  | on_node_failed
  | on_node_deleted
deriving DecidableEq, Repr

/-- One observed callback invocation: which registered callback (by its
registration index), which capability, and for which node. -/
structure FiredCallback where
  cb : Nat
  kind : CallbackKind
  node_type : NodeType
  node_id : Nat
deriving DecidableEq, Repr

/-- Embeds `ResourcePlan` of `dlrover.python.master.resource.optimizer` as
used by `remove_training_nodes`: the list of removed node names. -/
structure ResourcePlan where
  removed_nodes : List (Option String)
deriving DecidableEq, Repr

/-- Embeds the mutable state of `NodeManager` (node_manager.py, lines 54-96)
that the verified operations read or write: the cross-role node index
`_job_nodes` (flattened to a list of nodes, each carrying its role and id),
the `_relaunch_pod` switch, the registered callbacks (by registration index),
the `_wait_pending_relaunch` knob with its `_pending_relaunch_count` counter,
and the `_stop_monitor` flag. -/
structure NodeManager where
  job_nodes : List Node
  relaunch_pod : Bool
  wait_pending_relaunch : Bool
  pending_relaunch_count : Nat
  node_event_callbacks : List Nat
  stop_monitor : Bool
deriving DecidableEq, Repr

/-- Lookup of `self._job_nodes[node_type][node_id]` on the flattened index:
the first node with the given role and id. -/
def lookup_node (nodes : List Node) (t : NodeType) (i : Nat) : Option Node :=
  nodes.find? fun n => decide (n.type = t ∧ n.id = i)

/-- Write-back of a mutated node record into the flattened index: every entry
keyed `(t, i)` holds the updated record (keys are unique in the Python dict,
so exactly one entry is concerned). -/
def set_node (nodes : List Node) (t : NodeType) (i : Nat) (v : Node) :
    List Node :=
  nodes.map fun n => if n.type = t ∧ n.id = i then v else n

/-- Embeds `NodeManager._process_node_events` (node_manager.py, lines
271-298): dispatch keyed on the transition target, with the DELETED target
guarded by the transition's origin; each registered callback is invoked in
registration order.  The result is the list of fired callback
invocations. -/
def _process_node_events (callbacks : List Nat)
    (status_change_flow : NodeStateFlow) (node : Node) : List FiredCallback :=
  if status_change_flow.to_status = NodeStatus.RUNNING then
    callbacks.map fun c =>
      { cb := c, kind := CallbackKind.on_node_started,
        node_type := node.type, node_id := node.id }
  else if status_change_flow.to_status = NodeStatus.SUCCEEDED then
    callbacks.map fun c =>
      { cb := c, kind := CallbackKind.on_node_succeeded,
        node_type := node.type, node_id := node.id }
  else if status_change_flow.to_status = NodeStatus.FAILED then
    callbacks.map fun c =>
      { cb := c, kind := CallbackKind.on_node_failed,
        node_type := node.type, node_id := node.id }
  else if status_change_flow.from_status ≠ NodeStatus.FAILED ∧
      status_change_flow.from_status ≠ NodeStatus.SUCCEEDED ∧
      status_change_flow.to_status = NodeStatus.DELETED then
    callbacks.map fun c =>
      { cb := c, kind := CallbackKind.on_node_deleted,
        node_type := node.type, node_id := node.id }
  else []

/-- Embeds `NodeManager._should_relaunch` (node_manager.py, lines 300-336):
the branch chain over the exit reason, followed by the final
`inc_relaunch_count` on a positive verdict.  Returns the (possibly mutated)
node together with the verdict; `relaunch_pod` is the coordinator's
`_relaunch_pod` switch. -/
def _should_relaunch (relaunch_pod : Bool) (node : Node)
    (status_change_flow : NodeStateFlow) : Node × Bool :=
  let should0 :=
    status_change_flow.should_relaunch && relaunch_pod && node.relaunchable
  let step : Node × Bool :=
    if should0 then
      if node.exit_reason = NodeExitReason.FATAL_ERROR then
        (node, false)
      else if node.exit_reason = NodeExitReason.OOM then
        if node.used_resource.memory > MAX_MEMORY then
          (node, false)
        else if node.relaunch_count ≥ node.max_relaunch_count then
          (node, false)
        else
          ({ node with is_recovered_oom := true }, true)
      else if node.exit_reason ≠ NodeExitReason.KILLED then
        if node.relaunch_count > node.max_relaunch_count then
          (node, false)
        else
          (node, true)
      else
        (node, true)
    else (node, false)
  if step.2 then (step.1.inc_relaunch_count, true) else step

/-- The outcome of one `_process_event` call: the updated coordinator state,
the callbacks fired during dispatch, and whether a relaunch was requested
(`_relaunch_typed_pod` would run on `should_relaunch = true`). -/
structure ProcessResult where
  manager : NodeManager
  fired : List FiredCallback
  should_relaunch : Bool
deriving DecidableEq, Repr

/-- Embeds `NodeManager._process_event` (node_manager.py, lines 221-269).
`none` models the KeyError raised when the event's node is not in the index.
The info refresh and the unconditional `update_status(new_status)` happen
before the state-flow check; when the flow is absent or originates from
SUCCEEDED the method returns there.  Otherwise it records the exit reason,
dispatches callbacks, consults the relaunch policy and bumps the pending
relaunch counter when configured to wait. -/
def _process_event (m : NodeManager) (event : NodeEvent) :
    Option ProcessResult :=
  let node_type := event.node.type
  let node_id := event.node.id
  match lookup_node m.job_nodes node_type node_id with
  | none => none
  | some cur_node0 =>
    let cur_node := cur_node0.update_info event.node.name
      event.node.start_time event.node.create_time
    let new_status := event.node.status
    let old_status := cur_node.status
    let status_change_flow :=
      get_node_state_flow old_status event.event_type new_status
    let cur_node := cur_node.update_status new_status
    match status_change_flow with
    | none =>
      some { manager :=
               { m with job_nodes := set_node m.job_nodes node_type node_id cur_node }
             fired := []
             should_relaunch := false }
    | some flow =>
      if flow.from_status = NodeStatus.SUCCEEDED then
        some { manager :=
                 { m with job_nodes := set_node m.job_nodes node_type node_id cur_node }
               fired := []
               should_relaunch := false }
      else
        let cur_node := cur_node.set_exit_reason event.node.exit_reason
        let fired := _process_node_events m.node_event_callbacks flow cur_node
        let sr := _should_relaunch m.relaunch_pod cur_node flow
        let cur_node := sr.1
        let should_relaunch := sr.2
        let pending :=
          if should_relaunch && m.wait_pending_relaunch then
            m.pending_relaunch_count + 1
          else m.pending_relaunch_count
        some { manager :=
                 { m with
                   job_nodes := set_node m.job_nodes node_type node_id cur_node
                   pending_relaunch_count := pending }
               fired := fired
               should_relaunch := should_relaunch }

/-- The monitor loop's treatment of one event (node_manager.py, lines
183-187): exceptions from `_process_event` are logged and the loop continues,
so a failing event leaves the state unchanged. -/
def process_event_total (m : NodeManager) (event : NodeEvent) : NodeManager :=
  match _process_event m event with
  | none => m
  | some r => r.manager

/-- A sequence of watch events handled by the monitor loop. -/
def process_events (m : NodeManager) (events : List NodeEvent) : NodeManager :=
  events.foldl process_event_total m

/-- The mock event built by `_process_list_nodes` (node_manager.py, lines
199-204) for a listed node: a DELETED event when the listed status is
DELETED, else a MODIFIED event. -/
def mock_event (node : Node) : NodeEvent :=
  { event_type :=
      if node.status = NodeStatus.DELETED then NodeEventType.DELETED
      else NodeEventType.MODIFIED
    node := node }

/-- The first phase of `_process_list_nodes`: process the mock event of every
listed node in order, collecting the fired callbacks; a KeyError (missing
node) aborts the pass as in Python. -/
def process_listed_nodes (m : NodeManager) :
    List Node → Option (NodeManager × List FiredCallback)
  | [] => some (m, [])
  | node :: rest =>
    match _process_event m (mock_event node) with
    | none => none
    | some r =>
      (process_listed_nodes r.manager rest).map fun p =>
        (p.1, r.fired ++ p.2)

/-- The second phase of `_process_list_nodes` (node_manager.py, lines
207-219): every indexed node that is not INITIAL, not already released and
whose `(role, id)` is absent from the listed keys is marked released. -/
def release_absent (exist_pods : List (NodeType × Nat)) (nodes : List Node) :
    List Node :=
  nodes.map fun n =>
    if n.status ≠ NodeStatus.INITIAL ∧ n.is_released = false ∧
        (n.type, n.id) ∉ exist_pods then
      { n with is_released := true }
    else n

/-- Embeds `NodeManager._process_list_nodes` (node_manager.py, lines
192-219): ingest the listed nodes through mock events, then tombstone the
indexed nodes the list no longer contains. -/
def _process_list_nodes (m : NodeManager) (nodes : List Node) :
    Option (NodeManager × List FiredCallback) :=
  let exist_pods := nodes.map fun n => (n.type, n.id)
  (process_listed_nodes m nodes).map fun p =>
    ({ p.1 with job_nodes := release_absent exist_pods p.1.job_nodes }, p.2)

/-- Embeds `NodeManager.stop` (node_manager.py, lines 393-400): switch off
relaunching, mark every indexed node non-critical and released, and raise the
stop flag. -/
def NodeManager.stop (m : NodeManager) : NodeManager :=
  { m with
    relaunch_pod := false
    job_nodes := m.job_nodes.map fun n =>
      { n with critical := false, is_released := true }
    stop_monitor := true }

/-- Embeds `NodeManager.all_critical_node_completed` (node_manager.py, lines
362-376): completion holds iff no critical node is INITIAL, PENDING or
RUNNING. -/
def all_critical_node_completed (m : NodeManager) : Bool :=
  (m.job_nodes.filter fun n =>
    n.critical &&
      decide (n.status ∈
        [NodeStatus.INITIAL, NodeStatus.PENDING, NodeStatus.RUNNING])).isEmpty

/-- The per-node guard of `remove_training_nodes` (node_manager.py, lines
429-432): a training node is removed when RUNNING or PENDING and not yet
released. -/
def remove_guard (n : Node) : Bool :=
  decide (n.status ∈ [NodeStatus.RUNNING, NodeStatus.PENDING]) &&
    !n.is_released

/-- The mutation `remove_training_nodes` applies to a removed node
(node_manager.py, lines 433-436). -/
def remove_mark (n : Node) : Node :=
  { n with
    critical := false
    relaunchable := false
    is_released := true
    status := NodeStatus.DELETED }

/-- Embeds `NodeManager.remove_training_nodes` (node_manager.py, lines
422-438): iterate the worker nodes then the PS nodes, marking each RUNNING or
PENDING unreleased one removed and appending its name to a local
`ResourcePlan`.  The method has no return statement, so the Python return
value — the last component — is `None`; the locally built plan is the middle
component. -/
def remove_training_nodes (m : NodeManager) :
    NodeManager × ResourcePlan × Option ResourcePlan :=
  let training_nodes :=
    (m.job_nodes.filter fun n => n.type = NodeType.WORKER) ++
      (m.job_nodes.filter fun n => n.type = NodeType.PS)
  let plan : ResourcePlan :=
    { removed_nodes :=
        (training_nodes.foldl
          (fun acc n => if remove_guard n then acc ++ [n.name] else acc) []) }
  let job_nodes := m.job_nodes.map fun n =>
    if (n.type = NodeType.WORKER ∨ n.type = NodeType.PS) ∧ remove_guard n then
      remove_mark n
    else n
  ({ m with job_nodes := job_nodes }, plan, none)

/-! ## Concrete fixtures used by the scenario theorems -/

/-- A relaunchable critical worker in RUNNING, with resource usage well below
the memory ceiling (scenario fixtures of §8). -/
def exampleWorker : Node :=
  { type := NodeType.WORKER, id := 0, name := some "w0",
    status := NodeStatus.RUNNING, exit_reason := NodeExitReason.NONE,
    used_resource := { cpu := 1, memory := 1024 },
    create_time := some 1, start_time := some 2,
    relaunch_count := 0, max_relaunch_count := 1,
    critical := true, relaunchable := true,
    is_released := false, is_recovered_oom := false }

/-- A coordinator owning `exampleWorker`, with relaunching enabled and one
registered callback. -/
def exampleManager : NodeManager :=
  { job_nodes := [exampleWorker], relaunch_pod := true,
    wait_pending_relaunch := false, pending_relaunch_count := 0,
    node_event_callbacks := [0], stop_monitor := false }

/-- The same worker before any event, in INITIAL. -/
def initialWorker : Node :=
  { exampleWorker with status := NodeStatus.INITIAL, name := none }

/-- A coordinator owning `initialWorker`. -/
def initialManager : NodeManager :=
  { exampleManager with job_nodes := [initialWorker] }

/-- A MODIFIED event reporting the worker RUNNING. -/
def runEvent : NodeEvent :=
  { event_type := NodeEventType.MODIFIED,
    node := { initialWorker with status := NodeStatus.RUNNING } }

/-- A DELETED watch event whose snapshot still carries the RUNNING phase and
a KILLED exit reason (a deletion observed before the phase update). -/
def killEvent : NodeEvent :=
  { event_type := NodeEventType.DELETED,
    node :=
      { initialWorker with
        status := NodeStatus.RUNNING
        exit_reason := NodeExitReason.KILLED } }

/-- A MODIFIED event reporting the worker FAILED with a KILLED exit. -/
def failEvent : NodeEvent :=
  { event_type := NodeEventType.MODIFIED,
    node :=
      { exampleWorker with
        status := NodeStatus.FAILED
        exit_reason := NodeExitReason.KILLED } }

/-- A MODIFIED event reporting the worker PENDING. -/
def pendingEvent : NodeEvent :=
  { event_type := NodeEventType.MODIFIED,
    node := { exampleWorker with status := NodeStatus.PENDING } }

/-- A chief that already SUCCEEDED (scenario 5 of §8). -/
def succeededChief : Node :=
  { exampleWorker with
    type := NodeType.CHIEF
    status := NodeStatus.SUCCEEDED
    name := some "c0" }

/-- A coordinator owning `succeededChief`. -/
def succeededChiefManager : NodeManager :=
  { exampleManager with job_nodes := [succeededChief] }

/-- A spurious MODIFIED event reporting the succeeded chief RUNNING. -/
def spuriousRunningEvent : NodeEvent :=
  { event_type := NodeEventType.MODIFIED,
    node := { succeededChief with status := NodeStatus.RUNNING } }

/-- A running worker that has already been released. -/
def releasedWorker : Node :=
  { exampleWorker with id := 1, name := some "w1", is_released := true }

/-- A coordinator owning a removable running worker and a released running
worker. -/
def removalManager : NodeManager :=
  { exampleManager with job_nodes := [exampleWorker, releasedWorker] }

/-! ## C10: stop() makes all_critical_node_completed() true -/

/-- C10: `stop()` clears `critical` on every indexed node, so afterwards
`all_critical_node_completed()` reports completion: no critical node is left
in INITIAL, PENDING or RUNNING. -/
theorem stop_implies_all_critical_node_completed (m : NodeManager) :
    all_critical_node_completed m.stop = true := by
  simp only [all_critical_node_completed, NodeManager.stop,
    List.isEmpty_iff, List.filter_eq_nil_iff]
  intro a ha
  rcases List.mem_map.mp ha with ⟨n, _, rfl⟩
  simp

/-! ## C2: the relaunch policy follows the spec's decision procedure -/

/-- The five-step decision procedure of §4.D of the spec, written from the
spec's words: the gate `flow.should_relaunch ∧ relaunch_enabled ∧
relaunchable`, then FATAL_ERROR, then the OOM checks against the memory
ceiling and the budget, then the non-KILLED budget check, else KILLED. -/
def spec_relaunch_verdict (relaunch_enabled : Bool) (node : Node)
    (flow : NodeStateFlow) : Bool :=
  if flow.should_relaunch && relaunch_enabled && node.relaunchable then
    if node.exit_reason = NodeExitReason.FATAL_ERROR then false
    else if node.exit_reason = NodeExitReason.OOM then
      if node.used_resource.memory > MAX_MEMORY then false
      else if node.relaunch_count ≥ node.max_relaunch_count then false
      else true
    else if node.exit_reason ≠ NodeExitReason.KILLED then
      if node.relaunch_count > node.max_relaunch_count then false else true
    else true
  else false

/-- C2: `_should_relaunch` returns exactly the spec's five-step verdict, and
its only mutations are the `relaunch_count` increment — performed iff the
verdict is true — and `is_recovered_oom`, set iff the verdict is true for an
OOM exit. -/
theorem should_relaunch_matches_spec (relaunch_pod : Bool) (node : Node)
    (flow : NodeStateFlow) :
    _should_relaunch relaunch_pod node flow =
      (if spec_relaunch_verdict relaunch_pod node flow then
        { node with
          relaunch_count := node.relaunch_count + 1
          is_recovered_oom :=
            node.is_recovered_oom ||
              decide (node.exit_reason = NodeExitReason.OOM) }
       else node,
       spec_relaunch_verdict relaunch_pod node flow) := by
  obtain ⟨t, i, nm, st, er, ur, ct, stt, rc, mrc, cr, rl, irel, iro⟩ := node
  simp only [_should_relaunch, spec_relaunch_verdict, Node.inc_relaunch_count]
  cases er <;> cases rl <;> cases flow.should_relaunch <;> cases relaunch_pod <;>
    cases iro <;> simp_all <;> split_ifs <;> simp_all <;> omega

/-! ## C7: callback dispatch is keyed by the transition target -/

/-- C7: for every matched state flow, dispatch is keyed by the transition
target — `→ RUNNING` fires `on_node_started`, `→ SUCCEEDED` fires
`on_node_succeeded`, `→ FAILED` fires `on_node_failed`, and `→ DELETED` fires
`on_node_deleted` exactly when the origin is neither FAILED nor SUCCEEDED —
and each registered callback is invoked once, in registration order. -/
theorem callback_dispatch_by_target (callbacks : List Nat)
    (flow : NodeStateFlow) (node : Node) :
    (flow.to_status = NodeStatus.RUNNING →
      _process_node_events callbacks flow node =
        callbacks.map fun c =>
          { cb := c, kind := CallbackKind.on_node_started,
            node_type := node.type, node_id := node.id }) ∧
    (flow.to_status = NodeStatus.SUCCEEDED →
      _process_node_events callbacks flow node =
        callbacks.map fun c =>
          { cb := c, kind := CallbackKind.on_node_succeeded,
            node_type := node.type, node_id := node.id }) ∧
    (flow.to_status = NodeStatus.FAILED →
      _process_node_events callbacks flow node =
        callbacks.map fun c =>
          { cb := c, kind := CallbackKind.on_node_failed,
            node_type := node.type, node_id := node.id }) ∧
    (flow.to_status = NodeStatus.DELETED →
      _process_node_events callbacks flow node =
        (if flow.from_status ≠ NodeStatus.FAILED ∧
            flow.from_status ≠ NodeStatus.SUCCEEDED then
          callbacks.map fun c =>
            { cb := c, kind := CallbackKind.on_node_deleted,
              node_type := node.type, node_id := node.id }
         else [])) := by
  refine ⟨fun h => ?_, fun h => ?_, fun h => ?_, fun h => ?_⟩
  · simp [_process_node_events, h]
  · simp [_process_node_events, h]
  · simp [_process_node_events, h]
  · simp only [_process_node_events, h]
    split_ifs <;> simp_all

/-- Concrete instance of the dispatch rule: a RUNNING → DELETED flow with two
registered callbacks fires `on_node_deleted` on both, in order, while a
FAILED → DELETED flow fires nothing. -/
theorem callback_dispatch_by_target_witness :
    _process_node_events [0, 1]
        { from_status := NodeStatus.RUNNING, to_status := NodeStatus.DELETED,
          should_relaunch := true } exampleWorker =
      [ { cb := 0, kind := CallbackKind.on_node_deleted,
          node_type := NodeType.WORKER, node_id := 0 }
      , { cb := 1, kind := CallbackKind.on_node_deleted,
          node_type := NodeType.WORKER, node_id := 0 } ] ∧
    _process_node_events [0, 1]
        { from_status := NodeStatus.FAILED, to_status := NodeStatus.DELETED,
          should_relaunch := false } exampleWorker = [] := by
  constructor
  · have h := (callback_dispatch_by_target [0, 1]
      { from_status := NodeStatus.RUNNING, to_status := NodeStatus.DELETED,
        should_relaunch := true } exampleWorker).2.2.2 rfl
    simpa using h
  · have h := (callback_dispatch_by_target [0, 1]
      { from_status := NodeStatus.FAILED, to_status := NodeStatus.DELETED,
        should_relaunch := false } exampleWorker).2.2.2 rfl
    simpa using h

/-! ## Field-preservation lemmas for the Node mutators -/

theorem update_info_status (n : Node) (a : Option String) (b c : Option Nat) :
    (n.update_info a b c).status = n.status := rfl

theorem update_info_type (n : Node) (a : Option String) (b c : Option Nat) :
    (n.update_info a b c).type = n.type := rfl

theorem update_info_id (n : Node) (a : Option String) (b c : Option Nat) :
    (n.update_info a b c).id = n.id := rfl

theorem update_info_relaunch_count (n : Node) (a : Option String)
    (b c : Option Nat) :
    (n.update_info a b c).relaunch_count = n.relaunch_count := rfl

theorem update_status_type (n : Node) (s : NodeStatus) :
    (n.update_status s).type = n.type := rfl

theorem update_status_id (n : Node) (s : NodeStatus) :
    (n.update_status s).id = n.id := rfl

theorem update_status_status (n : Node) (s : NodeStatus) :
    (n.update_status s).status = s := rfl

theorem set_exit_reason_type (n : Node) (r : NodeExitReason) :
    (n.set_exit_reason r).type = n.type := rfl

theorem set_exit_reason_id (n : Node) (r : NodeExitReason) :
    (n.set_exit_reason r).id = n.id := rfl

theorem set_exit_reason_status (n : Node) (r : NodeExitReason) :
    (n.set_exit_reason r).status = n.status := rfl

theorem set_exit_reason_relaunch_count (n : Node) (r : NodeExitReason) :
    (n.set_exit_reason r).relaunch_count = n.relaunch_count := rfl

/-- `_should_relaunch` mutates only the relaunch counter and the OOM-recovery
marker: identity, status, naming and timing fields pass through. -/
theorem should_relaunch_preserves (relaunch_pod : Bool) (node : Node)
    (flow : NodeStateFlow) :
    ((_should_relaunch relaunch_pod node flow).1).type = node.type ∧
    ((_should_relaunch relaunch_pod node flow).1).id = node.id ∧
    ((_should_relaunch relaunch_pod node flow).1).status = node.status ∧
    ((_should_relaunch relaunch_pod node flow).1).name = node.name ∧
    ((_should_relaunch relaunch_pod node flow).1).start_time = node.start_time ∧
    ((_should_relaunch relaunch_pod node flow).1).create_time = node.create_time := by
  unfold _should_relaunch
  dsimp only
  split_ifs <;> simp_all [Node.inc_relaunch_count]

/-- With the relaunch switch off, the policy declines and leaves the node
untouched. -/
theorem should_relaunch_off (node : Node) (flow : NodeStateFlow) :
    _should_relaunch false node flow = (node, false) := by
  simp [_should_relaunch]

/-! ## C1: counterexample to absorbing SUCCEEDED -/

/-- C1 counterexample: a chief whose status is SUCCEEDED receives a spurious
MODIFIED event carrying status RUNNING.  No callback fires and no relaunch is
requested, but `update_status` runs before the state-flow check, so the
stored status ends as RUNNING — not SUCCEEDED as the claim states. -/
theorem succeeded_overwritten_counterexample :
    (succeededChiefManager.job_nodes.map Node.status = [NodeStatus.SUCCEEDED]) ∧
    (_process_event succeededChiefManager spuriousRunningEvent).map
        (fun r => (r.manager.job_nodes.map Node.status, r.fired,
          r.should_relaunch)) =
      some ([NodeStatus.RUNNING], [], false) := by decide

/-! ## C3: counterexample to the relaunch hard cap -/

/-- C3 counterexample: a worker with `max_relaunch_count = 1` is started and
then hit by three DELETED events whose snapshots carry RUNNING and a KILLED
exit.  Each one matches a `should_relaunch` flow and KILLED is relaunched
unconditionally, so `relaunch_count` reaches 3 > `max_relaunch_count + 1`. -/
theorem relaunch_cap_counterexample :
    ((process_events initialManager
        [runEvent, killEvent, killEvent, killEvent]).job_nodes.map
      fun n => (n.relaunch_count, n.max_relaunch_count)) = [(3, 1)] ∧
    ¬ (3 ≤ 1 + 1) := by decide

/-! ## C4: counterexample to released nodes never seeing callbacks -/

/-- C4 counterexample: after `stop()` every node is released, yet a
subsequent MODIFIED event reporting the worker FAILED still fires
`on_node_failed` on the registered callback. -/
theorem released_node_callback_counterexample :
    (exampleManager.stop.job_nodes.map Node.is_released = [true]) ∧
    (_process_event exampleManager.stop failEvent).map (fun r => r.fired) =
      some [{ cb := 0, kind := CallbackKind.on_node_failed,
              node_type := NodeType.WORKER, node_id := 0 }] := by decide

/-! ## C6: counterexample to remove_training_nodes' contract -/

/-- C6 counterexample: with one removable running worker and one already
released running worker, the method marks only the former (the released
worker keeps status RUNNING, against the claim's "every RUNNING or PENDING")
and — having no return statement — returns `None` rather than the plan it
built. -/
theorem remove_training_nodes_counterexample :
    ((remove_training_nodes removalManager).1.job_nodes.map Node.status =
      [NodeStatus.DELETED, NodeStatus.RUNNING]) ∧
    ((remove_training_nodes removalManager).2.1.removed_nodes =
      [some "w0"]) ∧
    (remove_training_nodes removalManager).2.2 = none := by decide

/-! ## C8: counterexample to unmatched events leaving the record unchanged -/

/-- C8 counterexample: for a RUNNING worker, a MODIFIED event carrying
PENDING matches no state flow, yet processing it overwrites the stored status
with PENDING: the record does change. -/
theorem no_flow_overwrite_counterexample :
    (get_node_state_flow NodeStatus.RUNNING NodeEventType.MODIFIED
      NodeStatus.PENDING = none) ∧
    (_process_event exampleManager pendingEvent).map
        (fun r => (r.manager.job_nodes.map Node.status, r.fired,
          r.should_relaunch)) =
      some ([NodeStatus.PENDING], [], false) := by decide

/-! ## C9: counterexample to idempotent event processing -/

/-- C9 counterexample: a DELETED event whose snapshot carries RUNNING matches
the RUNNING → DELETED relaunch flow, but the stored status is set to the
carried RUNNING, so processing the same event again matches the flow again:
`relaunch_count` is 1 after one processing and 2 after two. -/
theorem process_event_not_idempotent_counterexample :
    ((process_event_total exampleManager killEvent).job_nodes.map
      Node.relaunch_count = [1]) ∧
    ((process_event_total (process_event_total exampleManager killEvent)
        killEvent).job_nodes.map Node.relaunch_count = [2]) := by decide

/-! ## Lemmas about the state-flow lookup and the node index -/

/-- A returned state flow always originates from the queried status. -/
theorem get_node_state_flow_from_eq {a : NodeStatus} {t : NodeEventType}
    {s : NodeStatus} {f : NodeStateFlow}
    (h : get_node_state_flow a t s = some f) : f.from_status = a := by
  unfold get_node_state_flow at h
  rcases Option.map_eq_some'.mp h with ⟨e, he, rfl⟩
  have hp := List.find?_some he
  simp only [decide_eq_true_eq] at hp
  exact hp.1

/-- Querying a transition from a status to itself never matches — for a
DELETED event this needs the queried status to be DELETED, which is what the
normalisation produces. -/
theorem get_node_state_flow_self_none :
    ∀ (s : NodeStatus) (t : NodeEventType),
      (t = NodeEventType.DELETED → s = NodeStatus.DELETED) →
      get_node_state_flow s t s = none := by decide

/-- A successful index lookup returns a node with the queried key. -/
theorem lookup_node_key {ns : List Node} {t : NodeType} {i : Nat} {n : Node}
    (h : lookup_node ns t i = some n) : n.type = t ∧ n.id = i := by
  have hp := List.find?_some h
  simpa using hp

theorem lookup_node_cons_pos {n : Node} {rest : List Node} {t : NodeType}
    {i : Nat} (h : n.type = t ∧ n.id = i) :
    lookup_node (n :: rest) t i = some n := by
  simp [lookup_node, List.find?_cons, h]

theorem lookup_node_cons_neg {n : Node} {rest : List Node} {t : NodeType}
    {i : Nat} (h : ¬(n.type = t ∧ n.id = i)) :
    lookup_node (n :: rest) t i = lookup_node rest t i := by
  simp [lookup_node, List.find?_cons, h]

theorem set_node_cons_pos {n : Node} {rest : List Node} {t : NodeType}
    {i : Nat} {v : Node} (h : n.type = t ∧ n.id = i) :
    set_node (n :: rest) t i v = v :: set_node rest t i v := by
  simp [set_node, h]

theorem set_node_cons_neg {n : Node} {rest : List Node} {t : NodeType}
    {i : Nat} {v : Node} (h : ¬(n.type = t ∧ n.id = i)) :
    set_node (n :: rest) t i v = n :: set_node rest t i v := by
  simp [set_node, h]

/-- Writing a node with key `(t, i)` does not affect lookups of a different
key. -/
theorem lookup_set_other (ns : List Node) (t : NodeType) (i : Nat) (v : Node)
    (t' : NodeType) (i' : Nat) (hne : ¬(t = t' ∧ i = i'))
    (hv : v.type = t ∧ v.id = i) :
    lookup_node (set_node ns t i v) t' i' = lookup_node ns t' i' := by
  have h1 : ¬(v.type = t' ∧ v.id = i') := by
    rcases hv with ⟨hvt, hvi⟩
    rw [hvt, hvi]
    exact hne
  induction ns with
  | nil => rfl
  | cons n rest ih =>
    by_cases hn : n.type = t ∧ n.id = i
    · have h2 : ¬(n.type = t' ∧ n.id = i') := by
        rcases hn with ⟨hnt, hni⟩
        rw [hnt, hni]
        exact hne
      rw [set_node_cons_pos hn, lookup_node_cons_neg h1,
        lookup_node_cons_neg h2]
      exact ih
    · by_cases h3 : n.type = t' ∧ n.id = i'
      · rw [set_node_cons_neg hn, lookup_node_cons_pos h3,
          lookup_node_cons_pos h3]
      · rw [set_node_cons_neg hn, lookup_node_cons_neg h3,
          lookup_node_cons_neg h3]
        exact ih

/-- Writing a node with key `(t, i)` makes a `(t, i)` lookup return it,
provided some node with that key was present. -/
theorem lookup_set_same (ns : List Node) (t : NodeType) (i : Nat) (v : Node)
    (hv : v.type = t ∧ v.id = i) (w : Node)
    (hw : lookup_node ns t i = some w) :
    lookup_node (set_node ns t i v) t i = some v := by
  induction ns with
  | nil => simp [lookup_node] at hw
  | cons n rest ih =>
    by_cases hn : n.type = t ∧ n.id = i
    · rw [set_node_cons_pos hn, lookup_node_cons_pos hv]
    · rw [lookup_node_cons_neg hn] at hw
      rw [set_node_cons_neg hn, lookup_node_cons_neg hn]
      exact ih hw

/-- Re-writing the same node at the same key is absorbed. -/
theorem set_node_absorb (ns : List Node) (t : NodeType) (i : Nat) (v : Node)
    (hv : v.type = t ∧ v.id = i) :
    set_node (set_node ns t i v) t i v = set_node ns t i v := by
  induction ns with
  | nil => rfl
  | cons n rest ih =>
    simp only [set_node, List.map_cons, List.cons.injEq] at ih ⊢
    refine ⟨?_, ih⟩
    by_cases hn : n.type = t ∧ n.id = i <;> simp [hn, hv]

/-- Positional view of `set_node`. -/
theorem set_node_getElem? (ns : List Node) (t : NodeType) (i : Nat) (v : Node)
    (k : Nat) :
    (set_node ns t i v)[k]? =
      (ns[k]?).map fun n => if n.type = t ∧ n.id = i then v else n := by
  simp [set_node]

/-- Every callback fired by `_process_node_events` concerns the dispatched
node. -/
theorem process_node_events_key (cbs : List Nat) (flow : NodeStateFlow)
    (node : Node) (fc : FiredCallback)
    (hm : fc ∈ _process_node_events cbs flow node) :
    fc.node_type = node.type ∧ fc.node_id = node.id := by
  unfold _process_node_events at hm
  split_ifs at hm <;> simp_all [List.mem_map] <;>
    rcases hm with ⟨c, -, rfl⟩ <;> simp

/-! ## C1 (amended): SUCCEEDED suppresses dispatch but not the status write -/

/-- C1 amended: for a node whose stored status is SUCCEEDED, any event is
dropped before dispatch — no callback fires, no exit reason is recorded, no
relaunch is considered and `relaunch_count` is untouched — but
`update_status` has already run, so the stored status ends as the event's
carried status (a spurious MODIFIED/RUNNING leaves the node RUNNING, not
SUCCEEDED). -/
theorem succeeded_event_dropped (m : NodeManager) (e : NodeEvent) (cur : Node)
    (hl : lookup_node m.job_nodes e.node.type e.node.id = some cur)
    (hs : cur.status = NodeStatus.SUCCEEDED) :
    _process_event m e =
      some { manager :=
               { m with
                 job_nodes := set_node m.job_nodes e.node.type e.node.id
                   ((cur.update_info e.node.name e.node.start_time
                     e.node.create_time).update_status e.node.status) }
             fired := []
             should_relaunch := false } := by
  unfold _process_event
  dsimp only
  rw [hl]
  dsimp only
  split
  · rfl
  · rename_i flow hf
    have hfrom : flow.from_status = NodeStatus.SUCCEEDED := by
      have h := get_node_state_flow_from_eq hf
      rwa [update_info_status, hs] at h
    rw [if_pos hfrom]

/-- Concrete instance: the spurious MODIFIED/RUNNING event for the succeeded
chief is dropped, leaving only the status overwrite. -/
theorem succeeded_event_dropped_witness :
    _process_event succeededChiefManager spuriousRunningEvent =
      some { manager :=
               { succeededChiefManager with
                 job_nodes := set_node succeededChiefManager.job_nodes
                   spuriousRunningEvent.node.type spuriousRunningEvent.node.id
                   ((succeededChief.update_info spuriousRunningEvent.node.name
                     spuriousRunningEvent.node.start_time
                     spuriousRunningEvent.node.create_time).update_status
                       spuriousRunningEvent.node.status) }
             fired := []
             should_relaunch := false } :=
  succeeded_event_dropped succeededChiefManager spuriousRunningEvent
    succeededChief (by decide) (by decide)

/-! ## C8 (amended): an unmatched event is dropped except for the status write -/

/-- C8 amended: when the state-flow lookup returns none the event is dropped
before dispatch — no callback, no exit-reason update, no relaunch-count
change, no flag change — but the stored status is still overwritten with the
event's carried status (and the name/time fields refreshed) because
`update_status` runs before the check. -/
theorem no_flow_drops_event (m : NodeManager) (e : NodeEvent) (cur : Node)
    (hl : lookup_node m.job_nodes e.node.type e.node.id = some cur)
    (hf : get_node_state_flow cur.status e.event_type e.node.status = none) :
    _process_event m e =
      some { manager :=
               { m with
                 job_nodes := set_node m.job_nodes e.node.type e.node.id
                   ((cur.update_info e.node.name e.node.start_time
                     e.node.create_time).update_status e.node.status) }
             fired := []
             should_relaunch := false } := by
  unfold _process_event
  dsimp only
  rw [hl]
  dsimp only
  split
  · rfl
  · rename_i flow hflow
    rw [update_info_status, hf] at hflow
    cases hflow

/-- Concrete instance: the MODIFIED/PENDING event on the running worker
matches no flow and is dropped, leaving only the status overwrite. -/
theorem no_flow_drops_event_witness :
    _process_event exampleManager pendingEvent =
      some { manager :=
               { exampleManager with
                 job_nodes := set_node exampleManager.job_nodes
                   pendingEvent.node.type pendingEvent.node.id
                   ((exampleWorker.update_info pendingEvent.node.name
                     pendingEvent.node.start_time
                     pendingEvent.node.create_time).update_status
                       pendingEvent.node.status) }
             fired := []
             should_relaunch := false } :=
  no_flow_drops_event exampleManager pendingEvent exampleWorker
    (by decide) (by decide)

/-! ## C3 (amended): the hard cap holds for non-KILLED exits only -/

/-- C3 amended: the relaunch budget is enforced per decision only for
non-KILLED exit reasons: whenever the policy relaunches a node whose
`exit_reason` is not KILLED, the incremented `relaunch_count` stays at most
`max_relaunch_count + 1`.  (KILLED exits are relaunched unconditionally, so a
sequence of KILLED failures drives the counter past any bound.) -/
theorem relaunch_cap_non_killed (relaunch_pod : Bool) (node : Node)
    (flow : NodeStateFlow)
    (hk : node.exit_reason ≠ NodeExitReason.KILLED)
    (hv : (_should_relaunch relaunch_pod node flow).2 = true) :
    ((_should_relaunch relaunch_pod node flow).1).relaunch_count ≤
      node.max_relaunch_count + 1 := by
  obtain ⟨t, i, nm, st, er, ur, ct, stt, rc, mrc, cr, rl, irel, iro⟩ := node
  simp only [_should_relaunch, Node.inc_relaunch_count] at hv ⊢
  cases er <;> cases rl <;> cases flow.should_relaunch <;>
    cases relaunch_pod <;> simp_all <;> split_ifs at hv ⊢ <;>
    simp_all <;> omega

/-- Concrete instance: an OOM exit within budget is relaunched and the
incremented counter respects the cap. -/
theorem relaunch_cap_non_killed_witness :
    ((_should_relaunch true
        { exampleWorker with exit_reason := NodeExitReason.OOM }
        { from_status := NodeStatus.RUNNING, to_status := NodeStatus.FAILED,
          should_relaunch := true }).1).relaunch_count ≤
      ({ exampleWorker with
          exit_reason := NodeExitReason.OOM } : Node).max_relaunch_count + 1 :=
  relaunch_cap_non_killed true
    { exampleWorker with exit_reason := NodeExitReason.OOM }
    { from_status := NodeStatus.RUNNING, to_status := NodeStatus.FAILED,
      should_relaunch := true } (by decide) (by decide)

/-! ## C4 (amended): stop() disables relaunching, not callback dispatch -/

/-- With the relaunch switch off, event processing never requests a relaunch,
never bumps the pending-relaunch counter, and never changes any node's
`relaunch_count`. -/
theorem relaunch_off_frame (m : NodeManager) (e : NodeEvent)
    (r : ProcessResult) (hrp : m.relaunch_pod = false)
    (h : _process_event m e = some r) :
    r.should_relaunch = false ∧
    r.manager.pending_relaunch_count = m.pending_relaunch_count ∧
    ∀ (t : NodeType) (i : Nat),
      (lookup_node r.manager.job_nodes t i).map Node.relaunch_count =
        (lookup_node m.job_nodes t i).map Node.relaunch_count := by
  unfold _process_event at h
  dsimp only at h
  cases hl : lookup_node m.job_nodes e.node.type e.node.id with
  | none => rw [hl] at h; cases h
  | some cur0 =>
    rw [hl] at h
    dsimp only at h
    have hkey := lookup_node_key hl
    have main : ∀ v : Node, v.type = e.node.type → v.id = e.node.id →
        v.relaunch_count = cur0.relaunch_count →
        ∀ (t : NodeType) (i : Nat),
          (lookup_node (set_node m.job_nodes e.node.type e.node.id v) t
              i).map Node.relaunch_count =
            (lookup_node m.job_nodes t i).map Node.relaunch_count := by
      intro v hvt hvi hvc t i
      by_cases hk : e.node.type = t ∧ e.node.id = i
      · rcases hk with ⟨rfl, rfl⟩
        rw [lookup_set_same _ _ _ _ ⟨hvt, hvi⟩ cur0 hl, hl]
        simp [hvc]
      · rw [lookup_set_other _ _ _ _ _ _ hk ⟨hvt, hvi⟩]
    split at h
    · rw [Option.some_inj] at h
      subst h
      exact ⟨rfl, rfl, main _ hkey.1 hkey.2 rfl⟩
    · rename_i flow hflow
      split at h
      · rw [Option.some_inj] at h
        subst h
        exact ⟨rfl, rfl, main _ hkey.1 hkey.2 rfl⟩
      · rw [hrp, should_relaunch_off] at h
        dsimp only at h
        simp only [Bool.false_and, Bool.false_eq_true, if_false] at h
        rw [Option.some_inj] at h
        subst h
        refine ⟨rfl, rfl, main _ hkey.1 hkey.2 rfl⟩

/-- C4 amended: after `stop()` no relaunch is dispatched for any subsequent
event — the relaunch verdict is false, the pending-relaunch counter is
untouched and every node keeps its `relaunch_count` — but `is_released` does
not gate callback dispatch, so callbacks can still fire for events processed
after `stop()`. -/
theorem stop_disables_relaunch (m : NodeManager) (e : NodeEvent)
    (r : ProcessResult) (h : _process_event m.stop e = some r) :
    r.should_relaunch = false ∧
    r.manager.pending_relaunch_count = m.stop.pending_relaunch_count ∧
    ∀ (t : NodeType) (i : Nat),
      (lookup_node r.manager.job_nodes t i).map Node.relaunch_count =
        (lookup_node m.stop.job_nodes t i).map Node.relaunch_count :=
  relaunch_off_frame m.stop e r rfl h

/-- The concrete outcome of processing `failEvent` after `stop()`, used to
instantiate `stop_disables_relaunch`. -/
def stoppedFailResult : ProcessResult :=
  { manager :=
      { job_nodes :=
          [{ exampleWorker with
             status := NodeStatus.FAILED
             exit_reason := NodeExitReason.KILLED
             critical := false
             is_released := true }]
        relaunch_pod := false
        wait_pending_relaunch := false
        pending_relaunch_count := 0
        node_event_callbacks := [0]
        stop_monitor := true }
    fired := [{ cb := 0, kind := CallbackKind.on_node_failed,
                node_type := NodeType.WORKER, node_id := 0 }]
    should_relaunch := false }

/-- Concrete instance: the FAILED event processed after `stop()` yields a
false relaunch verdict and leaves the worker's relaunch counter at its old
value. -/
theorem stop_disables_relaunch_witness :
    stoppedFailResult.should_relaunch = false ∧
    (lookup_node stoppedFailResult.manager.job_nodes NodeType.WORKER 0).map
        Node.relaunch_count =
      (lookup_node exampleManager.stop.job_nodes NodeType.WORKER 0).map
        Node.relaunch_count :=
  ⟨(stop_disables_relaunch exampleManager failEvent stoppedFailResult
      (by decide)).1,
   (stop_disables_relaunch exampleManager failEvent stoppedFailResult
      (by decide)).2.2 NodeType.WORKER 0⟩

/-! ## C5: reconciliation tombstones absent nodes without callbacks -/

/-- Structure of a successful `_process_event`: the index is rewritten only
at the event's key, and every fired callback concerns the event's node. -/
theorem process_event_effects (m : NodeManager) (e : NodeEvent)
    (r : ProcessResult) (h : _process_event m e = some r) :
    (∃ v : Node,
      r.manager.job_nodes = set_node m.job_nodes e.node.type e.node.id v) ∧
    ∀ fc ∈ r.fired, fc.node_type = e.node.type ∧ fc.node_id = e.node.id := by
  unfold _process_event at h
  dsimp only at h
  cases hl : lookup_node m.job_nodes e.node.type e.node.id with
  | none => rw [hl] at h; cases h
  | some cur0 =>
    rw [hl] at h
    dsimp only at h
    have hkey := lookup_node_key hl
    split at h
    · rw [Option.some_inj] at h
      subst h
      exact ⟨⟨_, rfl⟩, by intro fc hfc; simp at hfc⟩
    · split at h
      · rw [Option.some_inj] at h
        subst h
        exact ⟨⟨_, rfl⟩, by intro fc hfc; simp at hfc⟩
      · rw [Option.some_inj] at h
        subst h
        refine ⟨⟨_, rfl⟩, ?_⟩
        intro fc hfc
        have hk := process_node_events_key _ _ _ _ hfc
        exact ⟨by rw [hk.1]; exact hkey.1, by rw [hk.2]; exact hkey.2⟩

/-- During the listed-nodes pass, an index position whose key matches none of
the listed nodes is untouched, and no callback fires for that key. -/
theorem process_listed_frame (S : List Node) (m m1 : NodeManager)
    (fired : List FiredCallback)
    (h : process_listed_nodes m S = some (m1, fired))
    (k : Nat) (n : Node) (hk : m.job_nodes[k]? = some n)
    (habs : ∀ s ∈ S, ¬(n.type = s.type ∧ n.id = s.id)) :
    m1.job_nodes[k]? = some n ∧
    ∀ fc ∈ fired, ¬(fc.node_type = n.type ∧ fc.node_id = n.id) := by
  induction S generalizing m m1 fired with
  | nil =>
    rw [process_listed_nodes, Option.some_inj, Prod.mk.injEq] at h
    obtain ⟨h1, h2⟩ := h
    subst h1
    subst h2
    exact ⟨hk, by intro fc hfc; simp at hfc⟩
  | cons s rest ih =>
    rw [process_listed_nodes] at h
    split at h
    · cases h
    · rename_i r hr
      rcases Option.map_eq_some'.mp h with ⟨p, hp, heq⟩
      rw [Prod.mk.injEq] at heq
      obtain ⟨h1, h2⟩ := heq
      subst h1
      subst h2
      obtain ⟨⟨v, hv⟩, hfk⟩ := process_event_effects m (mock_event s) r hr
      dsimp only [mock_event] at hfk hv
      have hns : ¬(n.type = s.type ∧ n.id = s.id) :=
        habs s (List.mem_cons_self s rest)
      have hframe : r.manager.job_nodes[k]? = some n := by
        rw [hv, set_node_getElem?, hk, Option.map_some']
        rw [if_neg hns]
      obtain ⟨hrec, hfrec⟩ := ih r.manager p.1 p.2 hp hframe
        (fun s' hs' => habs s' (List.mem_cons_of_mem s hs'))
      refine ⟨hrec, ?_⟩
      intro fc hfc
      rcases List.mem_append.mp hfc with hin | hin
      · have := hfk fc hin
        intro hcon
        exact hns ⟨by rw [← hcon.1, this.1], by rw [← hcon.2, this.2]⟩
      · exact hfrec fc hin

/-- C5: after `_process_list_nodes(S)`, every indexed node whose key is
absent from the snapshot, whose status is not INITIAL and which was not
already released is marked `is_released`, and no callback fires for such an
absent node during reconciliation. -/
theorem process_list_releases_absent (m : NodeManager) (S : List Node)
    (m' : NodeManager) (fired : List FiredCallback)
    (h : _process_list_nodes m S = some (m', fired))
    (k : Nat) (n : Node) (hk : m.job_nodes[k]? = some n)
    (hstat : n.status ≠ NodeStatus.INITIAL)
    (hrel : n.is_released = false)
    (habs : ∀ s ∈ S, ¬(n.type = s.type ∧ n.id = s.id)) :
    m'.job_nodes[k]? = some { n with is_released := true } ∧
    ∀ fc ∈ fired, ¬(fc.node_type = n.type ∧ fc.node_id = n.id) := by
  unfold _process_list_nodes at h
  rcases Option.map_eq_some'.mp h with ⟨p, hp, heq⟩
  rw [Prod.mk.injEq] at heq
  obtain ⟨h1, h2⟩ := heq
  subst h1
  subst h2
  obtain ⟨hframe, hfired⟩ :=
    process_listed_frame S m p.1 p.2 hp k n hk habs
  refine ⟨?_, hfired⟩
  show (release_absent _ p.1.job_nodes)[k]? = _
  rw [release_absent, List.getElem?_map, hframe, Option.map_some']
  have hmem : (n.type, n.id) ∉ S.map fun s => (s.type, s.id) := by
    intro hin
    rcases List.mem_map.mp hin with ⟨s, hs, hpair⟩
    have h1 : s.type = n.type := congrArg Prod.fst hpair
    have h2 : s.id = n.id := congrArg Prod.snd hpair
    exact habs s hs ⟨h1.symm, h2.symm⟩
  rw [if_pos ⟨hstat, hrel, hmem⟩]

/-- A parameter server still indexed but absent from the next list snapshot
(scenario 4 of §8). -/
def stalePS : Node :=
  { exampleWorker with type := NodeType.PS, id := 3, name := some "ps3" }

/-- A coordinator owning the running worker and the stale PS. -/
def staleManager : NodeManager :=
  { exampleManager with job_nodes := [exampleWorker, stalePS] }

/-- Concrete instance: reconciling against a snapshot that still lists the
worker but no longer lists the PS marks the PS released. -/
theorem process_list_releases_absent_witness :
    ({ staleManager with
       job_nodes := [exampleWorker, { stalePS with is_released := true }] } :
        NodeManager).job_nodes[1]? =
      some { stalePS with is_released := true } :=
  (process_list_releases_absent staleManager [exampleWorker]
    { staleManager with
      job_nodes := [exampleWorker, { stalePS with is_released := true }] }
    [] (by decide) 1 stalePS (by decide) (by decide) (by decide)
    (by decide)).1

/-! ## C9 (amended): idempotence for status-consistent events -/

theorem update_info_name_some (n : Node) {a : Option String}
    (b c : Option Nat) {y : String} (h : a = some y) :
    (n.update_info a b c).name = some y := by
  subst h
  rfl

theorem update_info_start_some (n : Node) (a : Option String)
    {b : Option Nat} (c : Option Nat) {y : Nat} (h : b = some y) :
    (n.update_info a b c).start_time = some y := by
  subst h
  rfl

theorem update_info_create_some (n : Node) (a : Option String)
    (b : Option Nat) {c : Option Nat} {y : Nat} (h : c = some y) :
    (n.update_info a b c).create_time = some y := by
  subst h
  rfl

/-- `update_info` is the identity on a node that has already absorbed the
event's info fields. -/
theorem update_info_absorbed (x : Node) (a : Option String) (b c : Option Nat)
    (ha : ∀ y, a = some y → x.name = some y)
    (hb : ∀ y, b = some y → x.start_time = some y)
    (hc : ∀ y, c = some y → x.create_time = some y) :
    x.update_info a b c = x := by
  obtain ⟨t, i, nm, st, er, ur, ct, stt, rc, mrc, cr, rl, irel, iro⟩ := x
  cases a <;> cases b <;> cases c <;> simp_all [Node.update_info]

/-- `update_status` is the identity when the stored status is already the
written one. -/
theorem update_status_self (n : Node) (s : NodeStatus) (h : n.status = s) :
    n.update_status s = n := by
  cases n
  simp_all [Node.update_status]

/-- After a successful `_process_event`, the index is rewritten at the
event's key with a node that carries the event's status and has absorbed the
event's info fields. -/
theorem process_event_written_node (m : NodeManager) (e : NodeEvent)
    (r : ProcessResult) (h : _process_event m e = some r) :
    ∃ cur0 v,
      lookup_node m.job_nodes e.node.type e.node.id = some cur0 ∧
      r.manager.job_nodes = set_node m.job_nodes e.node.type e.node.id v ∧
      v.type = e.node.type ∧ v.id = e.node.id ∧
      v.status = e.node.status ∧
      (∀ y, e.node.name = some y → v.name = some y) ∧
      (∀ y, e.node.start_time = some y → v.start_time = some y) ∧
      (∀ y, e.node.create_time = some y → v.create_time = some y) := by
  unfold _process_event at h
  dsimp only at h
  cases hl : lookup_node m.job_nodes e.node.type e.node.id with
  | none => rw [hl] at h; cases h
  | some cur0 =>
    rw [hl] at h
    dsimp only at h
    have hkey := lookup_node_key hl
    split at h
    · rw [Option.some_inj] at h
      subst h
      exact ⟨cur0,
        (cur0.update_info e.node.name e.node.start_time
          e.node.create_time).update_status e.node.status,
        rfl, rfl, hkey.1, hkey.2, rfl,
        fun y hy =>
          update_info_name_some cur0 e.node.start_time e.node.create_time hy,
        fun y hy =>
          update_info_start_some cur0 e.node.name e.node.create_time hy,
        fun y hy =>
          update_info_create_some cur0 e.node.name e.node.start_time hy⟩
    · split at h
      · rw [Option.some_inj] at h
        subst h
        exact ⟨cur0,
          (cur0.update_info e.node.name e.node.start_time
            e.node.create_time).update_status e.node.status,
          rfl, rfl, hkey.1, hkey.2, rfl,
          fun y hy =>
            update_info_name_some cur0 e.node.start_time e.node.create_time hy,
          fun y hy =>
            update_info_start_some cur0 e.node.name e.node.create_time hy,
          fun y hy =>
            update_info_create_some cur0 e.node.name e.node.start_time hy⟩
      · rename_i flow hflow hfrom
        rw [Option.some_inj] at h
        subst h
        obtain ⟨hpt, hpi, hps, hpn, hpst, hpct⟩ :=
          should_relaunch_preserves m.relaunch_pod
            (((cur0.update_info e.node.name e.node.start_time
              e.node.create_time).update_status
                e.node.status).set_exit_reason e.node.exit_reason) flow
        refine ⟨cur0,
          (_should_relaunch m.relaunch_pod
            (((cur0.update_info e.node.name e.node.start_time
              e.node.create_time).update_status
                e.node.status).set_exit_reason e.node.exit_reason) flow).1,
          rfl, rfl, ?_, ?_, ?_, ?_, ?_, ?_⟩
        · rw [hpt]; exact hkey.1
        · rw [hpi]; exact hkey.2
        · rw [hps]; rfl
        · intro y hy
          rw [hpn]
          exact update_info_name_some cur0 e.node.start_time
            e.node.create_time hy
        · intro y hy
          rw [hpst]
          exact update_info_start_some cur0 e.node.name
            e.node.create_time hy
        · intro y hy
          rw [hpct]
          exact update_info_create_some cur0 e.node.name
            e.node.start_time hy

/-- C9 amended: event processing is idempotent for every event whose carried
status is consistent with its type — in particular every MODIFIED/ADDED event
and every reconciliation-synthesised DELETED event (which carries status
DELETED).  For a DELETED event carrying another status, processing twice can
differ from processing once (see the counterexample). -/
theorem process_event_idempotent_on_consistent (m : NodeManager)
    (e : NodeEvent)
    (hde : e.event_type = NodeEventType.DELETED →
      e.node.status = NodeStatus.DELETED) :
    process_event_total (process_event_total m e) e =
      process_event_total m e := by
  cases h1 : _process_event m e with
  | none =>
    have hpt : process_event_total m e = m := by
      unfold process_event_total
      rw [h1]
    rw [hpt]
    unfold process_event_total
    rw [h1]
  | some r =>
    have hpt : process_event_total m e = r.manager := by
      unfold process_event_total
      rw [h1]
    rw [hpt]
    obtain ⟨cur0, v, hl, hjn, hvt, hvi, hvs, hna, hnb, hnc⟩ :=
      process_event_written_node m e r h1
    have hl2 : lookup_node r.manager.job_nodes e.node.type e.node.id =
        some v := by
      rw [hjn]
      exact lookup_set_same _ _ _ _ ⟨hvt, hvi⟩ cur0 hl
    have hui : v.update_info e.node.name e.node.start_time
        e.node.create_time = v :=
      update_info_absorbed v _ _ _ hna hnb hnc
    have hus : v.update_status e.node.status = v :=
      update_status_self v _ hvs
    have hflow : get_node_state_flow v.status e.event_type
        e.node.status = none := by
      rw [hvs]
      exact get_node_state_flow_self_none _ _ hde
    have h2 : _process_event r.manager e =
        some { manager :=
                 { r.manager with
                   job_nodes := set_node r.manager.job_nodes e.node.type
                     e.node.id v }
               fired := []
               should_relaunch := false } := by
      unfold _process_event
      dsimp only
      rw [hl2]
      dsimp only
      rw [hui, hus, hflow]
    unfold process_event_total
    rw [h2]
    dsimp only
    rw [hjn, set_node_absorb _ _ _ _ ⟨hvt, hvi⟩, ← hjn]

/-- Concrete instance: the MODIFIED/FAILED event is idempotent on the example
coordinator. -/
theorem process_event_idempotent_witness :
    process_event_total (process_event_total exampleManager failEvent)
        failEvent =
      process_event_total exampleManager failEvent :=
  process_event_idempotent_on_consistent exampleManager failEvent (by decide)

/-! ## C6 (amended): remove_training_nodes marks unreleased training nodes -/

theorem foldl_plan_eq_filter_map (l : List Node) (acc : List (Option String)) :
    l.foldl (fun acc n => if remove_guard n then acc ++ [n.name] else acc)
        acc =
      acc ++ (l.filter remove_guard).map Node.name := by
  induction l generalizing acc with
  | nil => simp
  | cons n rest ih =>
    by_cases hg : remove_guard n
    · simp [List.foldl_cons, hg, ih, List.filter_cons]
    · simp [List.foldl_cons, hg, ih, List.filter_cons]

/-- C6 amended: `remove_training_nodes` marks exactly the not-yet-released
Worker and PS nodes in RUNNING or PENDING as non-critical, non-relaunchable,
released and DELETED (`remove_mark`), leaves every other node — released,
SUCCEEDED, or of another role — unchanged, and builds a plan listing the
names of exactly the removed nodes (workers first, then PS); but the method
has no return statement, so its Python return value is `None`, not the
plan. -/
theorem remove_training_nodes_spec (m : NodeManager) :
    remove_training_nodes m =
      ({ m with
         job_nodes := m.job_nodes.map fun n =>
           if (n.type = NodeType.WORKER ∨ n.type = NodeType.PS) ∧
               remove_guard n then remove_mark n else n },
       { removed_nodes :=
           (((m.job_nodes.filter fun n => n.type = NodeType.WORKER) ++
             (m.job_nodes.filter fun n => n.type = NodeType.PS)).filter
               remove_guard).map Node.name },
       none) := by
  unfold remove_training_nodes
  dsimp only
  rw [foldl_plan_eq_filter_map]
  simp
